import Mathlib

/-!
Verification of the SET transmitter (`transmitSET` and its helpers).

The development shallowly embeds the source files `retry.ts`, `utils.ts` and
`transmitter.ts`.  Pure functions become Lean functions; the JavaScript number
type is embedded as `ℚ` where fractional arithmetic matters (backoff
computation) and as `Nat`/`Int` where the source only ever handles integers
(HTTP status codes, millisecond delays).  Host APIs that the source calls out
to are parameters of the embedding:

* `fetch` becomes an environment `env : Nat → FetchOutcome` giving the result
  of the dispatch performed by each 1-based attempt;
* `JSON.parse` becomes a parameter `jsonParse : String → Option α` (`none`
  models a parse exception);
* `new Date(...)`/`Date.now()` become a parameter `parseDate : String → Option Int`
  (epoch milliseconds, `none` models an invalid date) and a value `now : Int`;
* `new URL(url)` becomes a boolean `urlValid` saying whether URL parsing
  succeeds;
* `Math.random()` becomes an explicit draw `rand : ℚ` (a real draw lies in
  `[0, 1)`).

A `Response` body can be read only once; this statefulness is embedded by a
`bodyUsed` flag threaded through `parseResponseBody`, exactly as the source's
post-loop `try`/`catch` around the body re-read requires.  Backoff waits have
no observable effect on the returned outcome, so `delay` is not modelled in
the transmission loop.
-/

namespace SetTransmitter

/-- `RetryConfig` with every field required, as in `Required<RetryConfig>`
(`types.ts`).  Durations and the multiplier are JavaScript numbers, embedded
as `ℚ`; statuses are HTTP status codes, embedded as `Nat`. -/
structure RetryConfig where
  maxAttempts : Nat
  retryableStatuses : List Nat
  backoffMs : ℚ
  maxBackoffMs : ℚ
  backoffMultiplier : ℚ

/-- `DEFAULT_RETRY_CONFIG` from `types.ts`. -/
def DEFAULT_RETRY_CONFIG : RetryConfig :=
  { maxAttempts := 3
    retryableStatuses := [429, 502, 503, 504]
    backoffMs := 1000
    maxBackoffMs := 10000
    backoffMultiplier := 2 }

/-- The exponential-backoff-with-jitter path of `calculateBackoff`
(`retry.ts`).  `rand` is the draw of `Math.random()`; the source's `0.25` is
written `1/4`.  `Math.floor` is `Int.floor` on `ℚ`. -/
def calculateBackoffJitter (attempt : Nat) (config : RetryConfig) (rand : ℚ) : ℚ :=
  let exponentialDelay := config.backoffMs * config.backoffMultiplier ^ (attempt - 1)
  let clampedDelay := min exponentialDelay config.maxBackoffMs
  let jitter := clampedDelay * (1 / 4)
  let minDelay := clampedDelay - jitter
  let maxDelay := clampedDelay + jitter
  ((⌊rand * (maxDelay - minDelay) + minDelay⌋ : ℤ) : ℚ)

/-- `calculateBackoff` from `retry.ts`.  When a positive `retryAfterMs` hint
is present it returns `min hint maxBackoffMs` verbatim, otherwise the jitter
path runs. -/
def calculateBackoff (attempt : Nat) (config : RetryConfig) (retryAfterMs : Option ℚ)
    (rand : ℚ) : ℚ :=
  match retryAfterMs with
  | some hint =>
    if 0 < hint then min hint config.maxBackoffMs
    else calculateBackoffJitter attempt config rand
  | none => calculateBackoffJitter attempt config rand

/-- Value of the longest leading run of decimal digits, `none` when the first
character is not a digit (the `NaN` case of `parseInt`). -/
def digitsVal (cs : List Char) : Option Nat :=
  let ds := cs.takeWhile Char.isDigit
  if ds.isEmpty then none
  else some (ds.foldl (fun acc c => acc * 10 + (c.toNat - 48)) 0)

/-- JavaScript `parseInt(s, 10)`: skip leading whitespace, optional sign,
then the longest digit prefix; `none` models `NaN`. -/
def jsParseInt (s : String) : Option Int :=
  let cs := s.toList.dropWhile Char.isWhitespace
  match cs with
  | '-' :: rest => (digitsVal rest).map (fun n => -(n : Int))
  | '+' :: rest => (digitsVal rest).map (fun n => (n : Int))
  | _ => (digitsVal cs).map (fun n => (n : Int))

/-- `parseRetryAfter` from `retry.ts`.  `parseDate` embeds `new Date(s)`
(`some` epoch-milliseconds, or `none` for an invalid date) and `now` embeds
`Date.now()`.  The `!retryAfterHeader` guard covers both an absent and an
empty header. -/
def parseRetryAfter (parseDate : String → Option Int) (now : Int)
    (retryAfterHeader : Option String) : Option Int :=
  match retryAfterHeader with
  | none => none
  | some s =>
    if s.isEmpty then none
    else
      match jsParseInt s with
      | some delaySeconds => some (delaySeconds * 1000)
      | none =>
        match parseDate s with
        | some t =>
          let delayMs := t - now
          if 0 < delayMs then some delayMs else none
        | none => none

/-- `isRetryableStatus` from `retry.ts`. -/
def isRetryableStatus (statusCode : Nat) (retryableStatuses : List Nat) : Bool :=
  retryableStatuses.contains statusCode

/-- `shouldRetry` from `retry.ts`.  `none` for `statusCode` embeds the
`undefined` passed for transport-level failures. -/
def shouldRetry (statusCode : Option Nat) (attempt : Nat) (config : RetryConfig) : Bool :=
  if config.maxAttempts ≤ attempt then false
  else
    match statusCode with
    | none => true
    | some s => isRetryableStatus s config.retryableStatuses

/-- The character class `[A-Za-z0-9_-]` of the source's `base64urlRegex`. -/
def isBase64UrlChar (c : Char) : Bool :=
  ('A' ≤ c && c ≤ 'Z') || ('a' ≤ c && c ≤ 'z') || ('0' ≤ c && c ≤ '9') || c == '_' || c == '-'

/-- `/^[A-Za-z0-9_-]+$/.test part`: non-empty and every character in the
class. -/
def base64urlTest (part : List Char) : Bool :=
  !part.isEmpty && part.all isBase64UrlChar

/-- JavaScript `s.split('.')`: cut at every dot, keeping empty pieces
(so `"" ↦ [""]`, `"a..c" ↦ ["a", "", "c"]`). -/
def jsSplitOnDot : List Char → List (List Char)
  | [] => [[]]
  | c :: rest =>
    if c = '.' then [] :: jsSplitOnDot rest
    else
      match jsSplitOnDot rest with
      | [] => [[c]]
      | p :: ps => (c :: p) :: ps

/-- `isValidSET` from `utils.ts`: exactly three dot-separated parts, each
matching the URL-safe base64 regex. -/
def isValidSET (jwt : String) : Bool :=
  let parts := jsSplitOnDot jwt.toList
  parts.length == 3 && parts.all base64urlTest

/-- `normalizeAuthToken` from `utils.ts`. -/
def normalizeAuthToken (token : Option String) : Option String :=
  match token with
  | none => none
  | some t =>
    if t.isEmpty then none
    else if t.startsWith "Bearer " then some t
    else some ("Bearer " ++ t)

/-- JavaScript object-spread merge of two header records (`mergeHeaders` in
`utils.ts`): iterate the defaults then the overrides, later assignment to the
same key winning. -/
def recordSet (m : List (String × String)) (k v : String) : List (String × String) :=
  if m.any (fun p => p.1 == k) then
    m.map (fun p => if p.1 == k then (k, v) else p)
  else m ++ [(k, v)]

/-- `mergeHeaders` from `utils.ts`: custom headers layered over defaults,
custom values winning on key collision. -/
def mergeHeaders (defaultHeaders customHeaders : List (String × String)) :
    List (String × String) :=
  (defaultHeaders ++ customHeaders).foldl (fun acc p => recordSet acc p.1 p.2) []

/-- A `fetch` `Response` as the transmitter observes it.  Header names are
already lower-cased, as the `Headers` class guarantees; `bodyUsed` records
whether the one-shot body stream has been consumed. -/
structure ModelResponse where
  status : Nat
  statusText : String
  headers : List (String × String)
  bodyText : String
  bodyUsed : Bool
  deriving DecidableEq

/-- `response.text()`: yields the body text once and marks the body consumed;
a second read rejects. -/
def responseText (r : ModelResponse) : Except String (String × ModelResponse) :=
  if r.bodyUsed then Except.error "Body has already been consumed."
  else Except.ok (r.bodyText, { r with bodyUsed := true })

/-- `headers.get(name)` on the lower-cased header record. -/
def headersGet (headers : List (String × String)) (name : String) : Option String :=
  (headers.find? (fun p => p.1 == name)).map (fun p => p.2)

/-- JavaScript `s.includes(sub)`. -/
def containsSubstring (s sub : String) : Bool :=
  (List.range (s.length + 1)).any
    (fun i => (s.toList.drop i).take sub.length == sub.toList)

/-- `parseResponseHeaders` from `utils.ts`: copy every header into a fresh
record (`forEach` insertion, last value winning on a repeated key). -/
def parseResponseHeaders (headers : List (String × String)) : List (String × String) :=
  headers.foldl (fun acc p => recordSet acc p.1 p.2) []

/-- `parseResponseBody` from `utils.ts`.  `jsonParse` embeds `JSON.parse`
(`none` = parse exception).  The result is the body (`Sum.inl` text or
`Sum.inr` parsed JSON) together with the response in its post-read state;
`Except.error` is the rejection of `response.text()` on a consumed body. -/
def parseResponseBody {α : Type} (jsonParse : String → Option α) (response : ModelResponse)
    (parseJson : Bool) : Except String ((String ⊕ α) × ModelResponse) :=
  match responseText response with
  | Except.error e => Except.error e
  | Except.ok (text, response') =>
    if !parseJson || text.isEmpty then Except.ok (Sum.inl text, response')
    else
      match headersGet response'.headers "content-type" with
      | some contentType =>
        if containsSubstring contentType "application/json" then
          match jsonParse text with
          | some parsed => Except.ok (Sum.inr parsed, response')
          | none => Except.ok (Sum.inl text, response')
        else Except.ok (Sum.inl text, response')
      | none => Except.ok (Sum.inl text, response')

/-- The error classes of `errors.ts` that `transmitSET` can raise.  Each
constructor carries the final message string the corresponding class would
expose (`TimeoutError` already has its `(timeout: Nms)` suffix appended). -/
inductive TransmitError where
  | validationError (message : String)
  | timeoutError (message : String)
  | networkError (message : String)
  | transmissionError (message : String)
  deriving DecidableEq

/-- `error.message`. -/
def TransmitError.message : TransmitError → String
  | TransmitError.validationError m => m
  | TransmitError.timeoutError m => m
  | TransmitError.networkError m => m
  | TransmitError.transmissionError m => m

/-- Whether the error is one of the transport-level classes
(`TimeoutError`/`NetworkError`/`TransmissionError`), as opposed to a
`ValidationError`. -/
def TransmitError.isTransport : TransmitError → Bool
  | TransmitError.validationError _ => false
  | _ => true

/-- The `status` discriminator of `TransmitResult` (`types.ts`). -/
inductive TransmitStatus where
  | success
  | failed
  deriving DecidableEq

/-- `TransmitResult` from `types.ts`.  `body` is either raw text or a parsed
JSON value of the abstract type `α`; `error` and `retryable` are the optional
fields, absent on the success path. -/
structure TransmitResult (α : Type) where
  status : TransmitStatus
  statusCode : Nat
  body : String ⊕ α
  headers : List (String × String)
  error : Option String
  retryable : Option Bool
  deriving DecidableEq

/-- The outcome of one `fetch` dispatch, as the `try`/`catch` around it
classifies it: a response, an abort (`error.name === 'AbortError'`, i.e. the
timeout fired), some other thrown `Error`, or a thrown non-`Error` value. -/
inductive FetchOutcome where
  | ok (response : ModelResponse)
  | abortError
  | fetchError (message : String)
  | nonErrorThrow
  deriving DecidableEq

/-- Whether the dispatch failed at the transport level (no response). -/
def FetchOutcome.isTransportFailure : FetchOutcome → Bool
  | FetchOutcome.ok _ => false
  | _ => true

/-- A caller-supplied `RetryConfig` with every field optional, to be spread
over `DEFAULT_RETRY_CONFIG`. -/
structure RetryOverrides where
  maxAttempts : Option Nat := none
  retryableStatuses : Option (List Nat) := none
  backoffMs : Option ℚ := none
  maxBackoffMs : Option ℚ := none
  backoffMultiplier : Option ℚ := none

/-- Caller-supplied `TransmitOptions` (`types.ts`); every field optional. -/
structure TransmitOptions where
  authToken : Option String := none
  headers : List (String × String) := []
  timeout : Option Nat := none
  retry : Option RetryOverrides := none
  parseResponse : Option Bool := none
  validateStatus : Option (Nat → Bool) := none

/-- The fully-resolved options record built at the top of `transmitSET`. -/
structure MergedOptions where
  authToken : Option String
  headers : List (String × String)
  timeout : Nat
  parseResponse : Bool
  validateStatus : Nat → Bool
  retry : RetryConfig

/-- The default status-acceptance predicate of `DEFAULT_OPTIONS`
(`types.ts`): `status < 400`. -/
def defaultValidateStatus : Nat → Bool := fun status => decide (status < 400)

/-- `{ ...DEFAULT_RETRY_CONFIG, ...(options.retry || {}) }`. -/
def mergeRetryConfig (overrides : Option RetryOverrides) : RetryConfig :=
  match overrides with
  | none => DEFAULT_RETRY_CONFIG
  | some o =>
    { maxAttempts := o.maxAttempts.getD DEFAULT_RETRY_CONFIG.maxAttempts
      retryableStatuses := o.retryableStatuses.getD DEFAULT_RETRY_CONFIG.retryableStatuses
      backoffMs := o.backoffMs.getD DEFAULT_RETRY_CONFIG.backoffMs
      maxBackoffMs := o.maxBackoffMs.getD DEFAULT_RETRY_CONFIG.maxBackoffMs
      backoffMultiplier := o.backoffMultiplier.getD DEFAULT_RETRY_CONFIG.backoffMultiplier }

/-- The `mergedOptions` object of `transmitSET` (defaults from
`DEFAULT_OPTIONS`: timeout 30000, parseResponse true, validateStatus
`< 400`). -/
def mergeOptions (options : TransmitOptions) : MergedOptions :=
  { authToken := options.authToken
    headers := options.headers
    timeout := options.timeout.getD 30000
    parseResponse := options.parseResponse.getD true
    validateStatus := options.validateStatus.getD defaultValidateStatus
    retry := mergeRetryConfig options.retry }

deriving instance DecidableEq for Except

/-- A call's result together with the number of dispatches (`fetch` calls)
it performed.  `result` is `Except.error` when `transmitSET` raises and
`Except.ok` when it returns a `TransmitResult`. -/
structure TransmitOutput (α : Type) where
  result : Except TransmitError (TransmitResult α)
  dispatches : Nat
  deriving DecidableEq

/-- The descriptive string `HTTP ${status}: ${statusText}`. -/
def httpErrorString (r : ModelResponse) : String :=
  "HTTP " ++ toString r.status ++ ": " ++ r.statusText

/-- The `TimeoutError`/`NetworkError` that the inner `catch` of `transmitSET`
builds from a failed dispatch (only transport outcomes reach it). -/
def transportError (timeout : Nat) : FetchOutcome → TransmitError
  | FetchOutcome.abortError =>
    TransmitError.timeoutError ("Request timed out (timeout: " ++ toString timeout ++ "ms)")
  | FetchOutcome.fetchError msg => TransmitError.networkError ("Network error: " ++ msg)
  | _ => TransmitError.networkError "Unknown network error"

/-- The body that `transmitSET` reports for a response: the parsed body when
the read succeeds, and the empty-string fallback of the post-loop
`try`/`catch` when the body has already been consumed. -/
def bodyOrEmpty {α : Type} (jsonParse : String → Option α) (r : ModelResponse)
    (parseJson : Bool) : String ⊕ α :=
  match parseResponseBody jsonParse r parseJson with
  | Except.ok (b, _) => b
  | Except.error _ => Sum.inl ""

/-- The attempt loop of `transmitSET` (`transmitter.ts`), including the
post-loop exhaustion handling.  `fuel` counts the loop iterations still
allowed, so `fuel = 0` is the source's loop exit `attempt > maxAttempts`
(`transmitSET` starts the loop with `fuel = maxAttempts`, `attempt = 1`, and
every recursive call keeps `fuel + attempt = maxAttempts + 1`).  `lastErr`
and `lastResp` are the source's `lastError` and `lastResponse` accumulators.
Two simplifications are semantics-preserving: the backoff computation and
`delay` before a retry are dropped (the wait does not change the outcome),
and the source's `throw lastError` on a non-retryable transport failure —
which the outer `catch` swallows back into `lastError` before the loop
exits — is encoded as the direct loop continuation it amounts to. -/
def transmitLoop {α : Type} (opts : MergedOptions) (env : Nat → FetchOutcome)
    (jsonParse : String → Option α) :
    Nat → Nat → Option TransmitError → Option ModelResponse → TransmitOutput α
  | 0, _, lastErr, lastResp =>
    match lastResp with
    | some resp =>
      let responseHeaders := parseResponseHeaders resp.headers
      let responseBody : String ⊕ α := bodyOrEmpty jsonParse resp opts.parseResponse
      { result := Except.ok
          { status := TransmitStatus.failed
            statusCode := resp.status
            body := responseBody
            headers := responseHeaders
            error := some (match lastErr with
              | some e => e.message
              | none => httpErrorString resp)
            retryable := some true }
        dispatches := 0 }
    | none =>
      { result := Except.error (match lastErr with
          | some e => e
          | none =>
            TransmitError.transmissionError "Failed to transmit SET after all retry attempts")
        dispatches := 0 }
  | fuel + 1, attempt, lastErr, lastResp =>
    match env attempt with
    | FetchOutcome.ok response =>
      match parseResponseBody jsonParse response opts.parseResponse with
      | Except.error msg =>
        let e := TransmitError.networkError ("Network error: " ++ msg)
        let rest := transmitLoop opts env jsonParse fuel (attempt + 1) (some e) (some response)
        { result := rest.result, dispatches := rest.dispatches + 1 }
      | Except.ok (responseBody, response') =>
        let responseHeaders := parseResponseHeaders response.headers
        if opts.validateStatus response.status then
          { result := Except.ok
              { status := TransmitStatus.success
                statusCode := response.status
                body := responseBody
                headers := responseHeaders
                error := none
                retryable := none }
            dispatches := 1 }
        else if !shouldRetry (some response.status) attempt opts.retry then
          { result := Except.ok
              { status := TransmitStatus.failed
                statusCode := response.status
                body := responseBody
                headers := responseHeaders
                error := some (httpErrorString response)
                retryable := some (opts.retry.retryableStatuses.contains response.status) }
            dispatches := 1 }
        else
          let rest := transmitLoop opts env jsonParse fuel (attempt + 1) lastErr (some response')
          { result := rest.result, dispatches := rest.dispatches + 1 }
    | f =>
      let rest :=
        transmitLoop opts env jsonParse fuel (attempt + 1) (some (transportError opts.timeout f))
          lastResp
      { result := rest.result, dispatches := rest.dispatches + 1 }

/-- `transmitSET` from `transmitter.ts`.  `urlValid` embeds whether
`new URL(url)` succeeds; `env` gives each attempt's dispatch outcome.  Header
composition (`normalizeAuthToken`/`mergeHeaders`) is performed by the source
before the loop but has no effect on the returned outcome in this model, in
which `env` already fixes every response. -/
def transmitSET {α : Type} (jsonParse : String → Option α) (env : Nat → FetchOutcome)
    (jwt url : String) (urlValid : Bool) (options : TransmitOptions) : TransmitOutput α :=
  if !isValidSET jwt then
    { result := Except.error (TransmitError.validationError
        "Invalid SET format: JWT must be in format header.payload.signature")
      dispatches := 0 }
  else if !urlValid then
    { result := Except.error (TransmitError.validationError ("Invalid URL: " ++ url))
      dispatches := 0 }
  else
    let mergedOptions := mergeOptions options
    transmitLoop mergedOptions env jsonParse mergedOptions.retry.maxAttempts 1 none none

/-! ### Helper lemmas -/

/-- Reading a fresh (unconsumed) body never raises: `parseResponseBody`
returns the body `bodyOrEmpty` computes, together with the consumed
response. -/
theorem parseResponseBody_fresh {α : Type} (jsonParse : String → Option α)
    (r : ModelResponse) (flag : Bool) (h : r.bodyUsed = false) :
    parseResponseBody jsonParse r flag =
      Except.ok (bodyOrEmpty jsonParse r flag, { r with bodyUsed := true }) := by
  unfold bodyOrEmpty parseResponseBody responseText
  rw [h]
  simp only [Bool.false_eq_true, if_false]
  split
  · rfl
  · split
    · split
      · split <;> rfl
      · rfl
    · rfl

/-- A consumed body cannot be read again. -/
theorem parseResponseBody_consumed {α : Type} (jsonParse : String → Option α)
    (r : ModelResponse) (flag : Bool) (h : r.bodyUsed = true) :
    parseResponseBody jsonParse r flag = Except.error "Body has already been consumed." := by
  unfold parseResponseBody responseText
  rw [h]
  rfl

/-- On a consumed body, the reported body falls back to the empty string. -/
theorem bodyOrEmpty_consumed {α : Type} (jsonParse : String → Option α)
    (r : ModelResponse) (flag : Bool) (h : r.bodyUsed = true) :
    bodyOrEmpty jsonParse r flag = Sum.inl "" := by
  unfold bodyOrEmpty
  rw [parseResponseBody_consumed jsonParse r flag h]

/-! ### Claims -/

/-- C6: `shouldRetry` returns `false` whenever `attempt ≥ maxAttempts`; below
the cap it returns `true` for an absent status (transport failure) and, for a
present status, exactly membership in `config.retryableStatuses`.  With the
default config (`maxAttempts = 3`, retryable `[429, 502, 503, 504]`): `true`
for 503 at attempts 1 and 2, `false` at attempt 3 or above, `true` for an
absent status at attempts 1 and 2, `false` at 3, and `false` for 404 at every
attempt. -/
theorem C6_shouldRetry_spec :
    (∀ (s : Option Nat) (a : Nat) (cfg : RetryConfig), cfg.maxAttempts ≤ a →
      shouldRetry s a cfg = false) ∧
    (∀ (a : Nat) (cfg : RetryConfig), a < cfg.maxAttempts → shouldRetry none a cfg = true) ∧
    (∀ (st a : Nat) (cfg : RetryConfig), a < cfg.maxAttempts →
      shouldRetry (some st) a cfg = cfg.retryableStatuses.contains st) ∧
    shouldRetry (some 503) 1 DEFAULT_RETRY_CONFIG = true ∧
    shouldRetry (some 503) 2 DEFAULT_RETRY_CONFIG = true ∧
    shouldRetry (some 503) 3 DEFAULT_RETRY_CONFIG = false ∧
    shouldRetry (some 503) 4 DEFAULT_RETRY_CONFIG = false ∧
    shouldRetry none 1 DEFAULT_RETRY_CONFIG = true ∧
    shouldRetry none 2 DEFAULT_RETRY_CONFIG = true ∧
    shouldRetry none 3 DEFAULT_RETRY_CONFIG = false ∧
    (∀ a : Nat, shouldRetry (some 404) a DEFAULT_RETRY_CONFIG = false) := by
  refine ⟨?_, ?_, ?_, by decide, by decide, by decide, by decide, by decide, by decide,
    by decide, ?_⟩
  · intro s a cfg h
    simp [shouldRetry, h]
  · intro a cfg h
    simp [shouldRetry, Nat.not_le.mpr h]
  · intro st a cfg h
    simp [shouldRetry, Nat.not_le.mpr h, isRetryableStatus]
  · intro a
    by_cases h : DEFAULT_RETRY_CONFIG.maxAttempts ≤ a
    · simp [shouldRetry, h]
    · simp [shouldRetry, h, isRetryableStatus]
      decide

/-- Witness for C6 at concrete inputs. -/
theorem C6_shouldRetry_spec_witness :
    shouldRetry (some 503) 5 DEFAULT_RETRY_CONFIG = false ∧
    shouldRetry none 2 DEFAULT_RETRY_CONFIG = true ∧
    shouldRetry (some 502) 1 DEFAULT_RETRY_CONFIG =
      DEFAULT_RETRY_CONFIG.retryableStatuses.contains 502 :=
  ⟨C6_shouldRetry_spec.1 (some 503) 5 DEFAULT_RETRY_CONFIG (by decide),
   C6_shouldRetry_spec.2.1 2 DEFAULT_RETRY_CONFIG (by decide),
   C6_shouldRetry_spec.2.2.1 502 1 DEFAULT_RETRY_CONFIG (by decide)⟩

/-- helper: jitter path rewritten without lets -/
theorem calculateBackoffJitter_eq (attempt : Nat) (config : RetryConfig) (rand : ℚ) :
    calculateBackoffJitter attempt config rand =
      ((⌊rand * ((min (config.backoffMs * config.backoffMultiplier ^ (attempt - 1))
          config.maxBackoffMs) / 2) +
        (3 / 4) * min (config.backoffMs * config.backoffMultiplier ^ (attempt - 1))
          config.maxBackoffMs⌋ : ℤ) : ℚ) := by
  unfold calculateBackoffJitter
  norm_num
  congr 1
  ring

theorem C7_calculateBackoff_spec :
    (∀ (attempt : Nat) (config : RetryConfig) (hint rand : ℚ), 0 < hint →
      calculateBackoff attempt config (some hint) rand = min hint config.maxBackoffMs) ∧
    (∀ rand : ℚ, calculateBackoff 1 DEFAULT_RETRY_CONFIG (some 5000) rand = 5000) ∧
    (∀ rand : ℚ, calculateBackoff 1 DEFAULT_RETRY_CONFIG (some 20000) rand = 10000) ∧
    (∀ (attempt : Nat) (config : RetryConfig) (rand : ℚ), 1 ≤ attempt →
      0 ≤ rand → rand < 1 → 0 ≤ config.backoffMs → 0 ≤ config.backoffMultiplier →
      0 ≤ config.maxBackoffMs →
      ∃ v : ℚ,
        (3 / 4) * min (config.backoffMs * config.backoffMultiplier ^ (attempt - 1))
            config.maxBackoffMs ≤ v ∧
        v ≤ (5 / 4) * min (config.backoffMs * config.backoffMultiplier ^ (attempt - 1))
            config.maxBackoffMs ∧
        calculateBackoff attempt config none rand = ((⌊v⌋ : ℤ) : ℚ)) ∧
    (∀ (attempt : Nat) (config : RetryConfig) (rand : ℚ), config.backoffMs = 0 →
      0 ≤ config.maxBackoffMs → calculateBackoff attempt config none rand = 0) := by
  refine ⟨?_, ?_, ?_, ?_, ?_⟩
  · intro attempt config hint rand h
    simp [calculateBackoff, h]
  · intro rand
    simp [calculateBackoff, DEFAULT_RETRY_CONFIG]
    norm_num [min_def]
  · intro rand
    simp [calculateBackoff, DEFAULT_RETRY_CONFIG]
    norm_num [min_def]
  · intro attempt config rand _ hr0 hr1 hb hm hmax
    set c := min (config.backoffMs * config.backoffMultiplier ^ (attempt - 1))
      config.maxBackoffMs with hcdef
    have hc : 0 ≤ c := le_min (mul_nonneg hb (pow_nonneg hm _)) hmax
    refine ⟨rand * (c / 2) + (3 / 4) * c, ?_, ?_, ?_⟩
    · nlinarith [mul_nonneg hr0 (by linarith : (0:ℚ) ≤ c / 2)]
    · nlinarith [mul_le_mul_of_nonneg_right hr1.le (by linarith : (0:ℚ) ≤ c / 2)]
    · show calculateBackoffJitter attempt config rand = _
      rw [calculateBackoffJitter_eq]
  · intro attempt config rand hb0 hmax
    show calculateBackoffJitter attempt config rand = 0
    rw [calculateBackoffJitter_eq]
    rw [hb0]
    norm_num [min_eq_left hmax]

theorem C7_calculateBackoff_spec_witness :
    calculateBackoff 1 DEFAULT_RETRY_CONFIG (some 5000) (1 / 2) =
      min 5000 DEFAULT_RETRY_CONFIG.maxBackoffMs ∧
    calculateBackoff 4 { DEFAULT_RETRY_CONFIG with backoffMs := 0 } none (1 / 3) = 0 :=
  ⟨C7_calculateBackoff_spec.1 1 DEFAULT_RETRY_CONFIG 5000 (1 / 2) (by norm_num),
   C7_calculateBackoff_spec.2.2.2.2 4 { DEFAULT_RETRY_CONFIG with backoffMs := 0 } (1 / 3)
     rfl (by norm_num [DEFAULT_RETRY_CONFIG])⟩


/-- C8: `parseRetryAfter` maps an absent or empty header to no hint; a
numeric string to seconds × 1000; a parseable date to the positive
millisecond difference from now; a past (or present) date to no hint; and a
string that is neither numeric nor a parseable date to no hint. -/
theorem C8_parseRetryAfter_spec :
    (∀ (parseDate : String → Option Int) (now : Int),
      parseRetryAfter parseDate now none = none) ∧
    (∀ (parseDate : String → Option Int) (now : Int),
      parseRetryAfter parseDate now (some "") = none) ∧
    (∀ (parseDate : String → Option Int) (now : Int) (s : String) (n : Int),
      jsParseInt s = some n → parseRetryAfter parseDate now (some s) = some (n * 1000)) ∧
    (∀ (parseDate : String → Option Int) (now : Int) (s : String) (t : Int), s ≠ "" →
      jsParseInt s = none → parseDate s = some t → now < t →
      parseRetryAfter parseDate now (some s) = some (t - now)) ∧
    (∀ (parseDate : String → Option Int) (now : Int) (s : String) (t : Int),
      jsParseInt s = none → parseDate s = some t → t ≤ now →
      parseRetryAfter parseDate now (some s) = none) ∧
    (∀ (parseDate : String → Option Int) (now : Int) (s : String),
      jsParseInt s = none → parseDate s = none →
      parseRetryAfter parseDate now (some s) = none) := by
  have hempty : ∀ s : String, s.isEmpty = true → jsParseInt s = none := by
    intro s hs
    rw [String.isEmpty_iff] at hs
    subst hs
    rfl
  refine ⟨fun _ _ => rfl, fun _ _ => rfl, ?_, ?_, ?_, ?_⟩
  · intro parseDate now s n hn
    have hne : s.isEmpty = false := by
      cases he : s.isEmpty
      · rfl
      · rw [hempty s he] at hn
        exact absurd hn (by simp)
    simp [parseRetryAfter, hne, hn]
  · intro parseDate now s t hne hn hd hlt
    have hne' : s.isEmpty = false := by
      cases he : s.isEmpty
      · rfl
      · exact absurd ((String.isEmpty_iff s).mp he) hne
    simp [parseRetryAfter, hne', hn, hd]
    omega
  · intro parseDate now s t hn hd hle
    by_cases he : s.isEmpty = true
    · simp [parseRetryAfter, he]
    · simp only [Bool.not_eq_true] at he
      simp [parseRetryAfter, he, hn, hd]
      omega
  · intro parseDate now s hn hd
    by_cases he : s.isEmpty = true
    · simp [parseRetryAfter, he]
    · simp only [Bool.not_eq_true] at he
      simp [parseRetryAfter, he, hn, hd]

/-- Witness for C8 at concrete inputs: the header string 120 gives a
120000 ms hint; a date 5000 ms in the future gives a 5000 ms hint; the same
date in the past gives no hint; an unparseable header gives no hint. -/
theorem C8_parseRetryAfter_spec_witness :
    parseRetryAfter (fun _ => none) 0 (some "120") = some 120000 ∧
    parseRetryAfter (fun s => if s = "Fri" then some 15000 else none) 10000 (some "Fri") =
      some 5000 ∧
    parseRetryAfter (fun s => if s = "Fri" then some 15000 else none) 20000 (some "Fri") =
      none ∧
    parseRetryAfter (fun _ => none) 0 (some "garbage") = none :=
  ⟨C8_parseRetryAfter_spec.2.2.1 (fun _ => none) 0 "120" 120 (by decide),
   by
    have := C8_parseRetryAfter_spec.2.2.2.1 (fun s => if s = "Fri" then some 15000 else none)
      10000 "Fri" 15000 (by decide) (by decide) (by simp) (by norm_num)
    simpa using this,
   by
    have := C8_parseRetryAfter_spec.2.2.2.2.1 (fun s => if s = "Fri" then some 15000 else none)
      20000 "Fri" 15000 (by decide) (by simp) (by norm_num)
    exact this,
   C8_parseRetryAfter_spec.2.2.2.2.2 (fun _ => none) 0 "garbage" (by decide) rfl⟩


/-- The literal body text of the round-trip example in the spec. -/
def exampleJsonText : String := "\x7b\"a\":1\x7d"

/-- A concrete stand-in for `JSON.parse` in the round-trip examples: it
parses the example object to the structured value `1` and fails on
everything else. -/
def exampleJsonParse : String → Option Nat :=
  fun s => if s = exampleJsonText then some 1 else none

/-- The example response carrying a JSON body with a JSON content type. -/
def exampleJsonResponse : ModelResponse :=
  { status := 200, statusText := "OK",
    headers := [("content-type", "application/json")],
    bodyText := exampleJsonText, bodyUsed := false }

/-- The example response whose body is not JSON despite a JSON content
type. -/
def exampleNotJsonResponse : ModelResponse :=
  { status := 200, statusText := "OK",
    headers := [("content-type", "application/json")],
    bodyText := "not-json", bodyUsed := false }

/-- C9: on a readable body, `parseResponseBody` never raises; with the parse
flag off, or an empty body, or a content type not containing
`application/json`, it returns the text unchanged; otherwise it returns the
parsed structure when `JSON.parse` succeeds and falls back to the raw text
when it fails.  The spec's round-trip examples are included. -/
theorem C9_parseResponseBody_spec :
    (∀ (α : Type) (jsonParse : String → Option α) (r : ModelResponse) (flag : Bool),
      r.bodyUsed = false →
      parseResponseBody jsonParse r flag =
        Except.ok (bodyOrEmpty jsonParse r flag, { r with bodyUsed := true })) ∧
    (∀ (α : Type) (jsonParse : String → Option α) (r : ModelResponse),
      r.bodyUsed = false →
      parseResponseBody jsonParse r false =
        Except.ok (Sum.inl r.bodyText, { r with bodyUsed := true })) ∧
    (∀ (α : Type) (jsonParse : String → Option α) (r : ModelResponse) (flag : Bool),
      r.bodyUsed = false → r.bodyText = "" →
      parseResponseBody jsonParse r flag =
        Except.ok (Sum.inl "", { r with bodyUsed := true })) ∧
    (∀ (α : Type) (jsonParse : String → Option α) (r : ModelResponse),
      r.bodyUsed = false →
      (∀ ct, headersGet r.headers "content-type" = some ct →
        containsSubstring ct "application/json" = false) →
      parseResponseBody jsonParse r true =
        Except.ok (Sum.inl r.bodyText, { r with bodyUsed := true })) ∧
    (∀ (α : Type) (jsonParse : String → Option α) (r : ModelResponse) (ct : String) (j : α),
      r.bodyUsed = false → r.bodyText ≠ "" →
      headersGet r.headers "content-type" = some ct →
      containsSubstring ct "application/json" = true →
      jsonParse r.bodyText = some j →
      parseResponseBody jsonParse r true =
        Except.ok (Sum.inr j, { r with bodyUsed := true })) ∧
    (∀ (α : Type) (jsonParse : String → Option α) (r : ModelResponse) (ct : String),
      r.bodyUsed = false →
      headersGet r.headers "content-type" = some ct →
      containsSubstring ct "application/json" = true →
      jsonParse r.bodyText = none →
      parseResponseBody jsonParse r true =
        Except.ok (Sum.inl r.bodyText, { r with bodyUsed := true })) ∧
    parseResponseBody exampleJsonParse exampleJsonResponse true =
      Except.ok (Sum.inr 1, { exampleJsonResponse with bodyUsed := true }) ∧
    parseResponseBody exampleJsonParse exampleJsonResponse false =
      Except.ok (Sum.inl exampleJsonText, { exampleJsonResponse with bodyUsed := true }) ∧
    parseResponseBody exampleJsonParse exampleNotJsonResponse true =
      Except.ok (Sum.inl "not-json", { exampleNotJsonResponse with bodyUsed := true }) := by
  have hne : ∀ s : String, s ≠ "" → s.isEmpty = false := by
    intro s h
    cases he : s.isEmpty
    · rfl
    · exact absurd ((String.isEmpty_iff s).mp he) h
  have h0 : "".isEmpty = true := rfl
  refine ⟨fun _ => parseResponseBody_fresh, ?_, ?_, ?_, ?_, ?_, by decide, by decide, by decide⟩
  · intro α jsonParse r h
    unfold parseResponseBody responseText
    rw [h]
    simp
  · intro α jsonParse r flag h hb
    unfold parseResponseBody responseText
    rw [h]
    simp [hb, h0]
  · intro α jsonParse r h hct
    unfold parseResponseBody responseText
    rw [h]
    simp only [Bool.false_eq_true, if_false]
    by_cases ht : r.bodyText.isEmpty = true
    · simp [ht, (String.isEmpty_iff r.bodyText).mp ht, h0]
    · simp only [Bool.not_eq_true] at ht
      rcases hg : headersGet r.headers "content-type" with _ | ct
      · simp [ht, hg]
      · simp [ht, hg, hct ct hg]
  · intro α jsonParse r ct j h hbne hg hsub hj
    unfold parseResponseBody responseText
    rw [h]
    simp [hne _ hbne, hg, hsub, hj]
  · intro α jsonParse r ct h hg hsub hj
    unfold parseResponseBody responseText
    rw [h]
    by_cases ht : r.bodyText.isEmpty = true
    · simp [ht, (String.isEmpty_iff r.bodyText).mp ht, h0]
    · simp only [Bool.not_eq_true] at ht
      simp [ht, hg, hsub, hj]

/-- Witness for C9 at a concrete input with the hypotheses discharged. -/
theorem C9_parseResponseBody_spec_witness :
    parseResponseBody exampleJsonParse exampleJsonResponse false =
      Except.ok (Sum.inl exampleJsonResponse.bodyText,
        { exampleJsonResponse with bodyUsed := true }) :=
  C9_parseResponseBody_spec.2.1 Nat exampleJsonParse exampleJsonResponse rfl


/-- Modelled from the spec's words, independently of the code: the token
splits on dots into exactly three segments, each non-empty and consisting
only of URL-safe base64 characters. -/
def SpecTokenWellFormed (s : String) : Prop :=
  ∃ p1 p2 p3 : List Char, jsSplitOnDot s.toList = [p1, p2, p3] ∧
    p1 ≠ [] ∧ p2 ≠ [] ∧ p3 ≠ [] ∧
    (∀ c ∈ p1, isBase64UrlChar c = true) ∧
    (∀ c ∈ p2, isBase64UrlChar c = true) ∧
    (∀ c ∈ p3, isBase64UrlChar c = true)

/-- The regex test accepts exactly the non-empty all-base64url segments. -/
theorem base64urlTest_iff (p : List Char) :
    base64urlTest p = true ↔ p ≠ [] ∧ ∀ c ∈ p, isBase64UrlChar c = true := by
  simp [base64urlTest, List.all_eq_true, List.isEmpty_iff]

/-- C10: `isValidSET` accepts a string iff it splits on dots into exactly
three non-empty URL-safe-base64 segments, and every rejected token makes
`transmitSET` raise a `ValidationError` with zero dispatches (no network
activity). -/
theorem C10_isValidSET_spec :
    (∀ s : String, isValidSET s = true ↔ SpecTokenWellFormed s) ∧
    (∀ (α : Type) (jsonParse : String → Option α) (env : Nat → FetchOutcome)
      (jwt url : String) (urlValid : Bool) (options : TransmitOptions),
      isValidSET jwt = false →
      transmitSET jsonParse env jwt url urlValid options =
        { result := Except.error (TransmitError.validationError
            "Invalid SET format: JWT must be in format header.payload.signature")
          dispatches := 0 }) := by
  constructor
  · intro s
    unfold isValidSET SpecTokenWellFormed
    simp only [Bool.and_eq_true, beq_iff_eq, List.all_eq_true]
    constructor
    · rintro ⟨hlen, hall⟩
      obtain ⟨p1, p2, p3, hsplit⟩ := List.length_eq_three.mp hlen
      have b1 := (base64urlTest_iff p1).mp (hall p1 (by rw [hsplit]; simp))
      have b2 := (base64urlTest_iff p2).mp (hall p2 (by rw [hsplit]; simp))
      have b3 := (base64urlTest_iff p3).mp (hall p3 (by rw [hsplit]; simp))
      exact ⟨p1, p2, p3, hsplit, b1.1, b2.1, b3.1, b1.2, b2.2, b3.2⟩
    · rintro ⟨p1, p2, p3, hsplit, h1, h2, h3, g1, g2, g3⟩
      rw [hsplit]
      refine ⟨rfl, ?_⟩
      intro p hp
      simp only [List.mem_cons, List.not_mem_nil, or_false] at hp
      rcases hp with rfl | rfl | rfl
      · exact (base64urlTest_iff p).mpr ⟨h1, g1⟩
      · exact (base64urlTest_iff p).mpr ⟨h2, g2⟩
      · exact (base64urlTest_iff p).mpr ⟨h3, g3⟩
  · intro α jsonParse env jwt url urlValid options h
    simp [transmitSET, h]


/-- Witness for C10: a malformed token makes the call raise the
`ValidationError` with zero dispatches. -/
theorem C10_isValidSET_spec_witness :
    transmitSET (fun _ => (none : Option Nat)) (fun _ => FetchOutcome.nonErrorThrow)
      "not-a-token" "https://receiver.example/events" true {} =
      { result := Except.error (TransmitError.validationError
          "Invalid SET format: JWT must be in format header.payload.signature")
        dispatches := 0 } :=
  C10_isValidSET_spec.2 Nat (fun _ => none) (fun _ => FetchOutcome.nonErrorThrow)
    "not-a-token" "https://receiver.example/events" true {} (by decide)

/-! ### Shared end-to-end scenario data -/

/-- A structurally valid token for the end-to-end scenarios. -/
def exampleToken : String := "aaa.bbb.ccc"

/-- The destination used by the end-to-end scenarios. -/
def exampleUrl : String := "https://receiver.example/events"

/-- A response with the given status, no headers and an empty body. -/
def plainResponse (status : Nat) (statusText : String) : ModelResponse :=
  { status := status, statusText := statusText, headers := [], bodyText := "",
    bodyUsed := false }

/-- JSON parsing that never succeeds; the scenario bodies are empty, so it is
never consulted. -/
def noJson : String → Option Nat := fun _ => none

/-- Options overriding `maxAttempts` to 2. -/
def optsTwoAttempts : TransmitOptions := { retry := some { maxAttempts := some 2 } }

/-- Options overriding `maxAttempts` to 1. -/
def optsOneAttempt : TransmitOptions := { retry := some { maxAttempts := some 1 } }

/-- Scenario B dispatches: responses 503, 502, then 200. -/
def envScenarioB : Nat → FetchOutcome := fun attempt =>
  if attempt = 1 then FetchOutcome.ok (plainResponse 503 "Service Unavailable")
  else if attempt = 2 then FetchOutcome.ok (plainResponse 502 "Bad Gateway")
  else FetchOutcome.ok (plainResponse 200 "OK")

/-- Scenario D dispatches: every response is 401. -/
def envScenarioD : Nat → FetchOutcome := fun _ =>
  FetchOutcome.ok (plainResponse 401 "Unauthorized")

/-- Scenario C dispatches: every response is 503. -/
def envScenarioC : Nat → FetchOutcome := fun _ =>
  FetchOutcome.ok (plainResponse 503 "Service Unavailable")

/-- Dispatches for the C3 counterexample: every response is 404. -/
def envAll404 : Nat → FetchOutcome := fun _ =>
  FetchOutcome.ok (plainResponse 404 "Not Found")

/-- C1: a dispatched response whose status the acceptance predicate accepts
ends the call immediately with a success outcome carrying that response's
status code, parsed body and normalized headers, with no further dispatch —
whatever the loop state; scenario B (503, 502, 200 under `maxAttempts = 3`)
makes exactly three dispatches and succeeds with status 200. -/
theorem C1_success_spec :
    (∀ (α : Type) (opts : MergedOptions) (env : Nat → FetchOutcome)
      (jsonParse : String → Option α) (fuel attempt : Nat)
      (lastErr : Option TransmitError) (lastResp : Option ModelResponse) (r : ModelResponse),
      env attempt = FetchOutcome.ok r → r.bodyUsed = false →
      opts.validateStatus r.status = true →
      transmitLoop opts env jsonParse (fuel + 1) attempt lastErr lastResp =
        { result := Except.ok
            { status := TransmitStatus.success, statusCode := r.status,
              body := bodyOrEmpty jsonParse r opts.parseResponse,
              headers := parseResponseHeaders r.headers, error := none, retryable := none }
          dispatches := 1 }) ∧
    transmitSET noJson envScenarioB exampleToken exampleUrl true {} =
      { result := Except.ok
          { status := TransmitStatus.success, statusCode := 200, body := Sum.inl "",
            headers := [], error := none, retryable := none }
        dispatches := 3 } := by
  constructor
  · intro α opts env jsonParse fuel attempt lastErr lastResp r henv hused hacc
    rw [transmitLoop, henv]
    simp [parseResponseBody_fresh jsonParse r opts.parseResponse hused, hacc]
  · decide

/-- Witness for C1 at a concrete loop state. -/
theorem C1_success_spec_witness :
    transmitLoop (mergeOptions {}) (fun _ => FetchOutcome.ok (plainResponse 200 "OK")) noJson
      1 1 none none =
      { result := Except.ok
          { status := TransmitStatus.success, statusCode := 200,
            body := bodyOrEmpty noJson (plainResponse 200 "OK") (mergeOptions {}).parseResponse,
            headers := parseResponseHeaders (plainResponse 200 "OK").headers,
            error := none, retryable := none }
        dispatches := 1 } :=
  C1_success_spec.1 Nat (mergeOptions {}) (fun _ => FetchOutcome.ok (plainResponse 200 "OK"))
    noJson 0 1 none none (plainResponse 200 "OK") rfl rfl (by decide)

/-- C2: when a response is obtained, its status is not accepted, and the
retry policy denies another attempt, the call ends at once with a failed
outcome carrying the response's status code, parsed body, normalized
headers, the descriptive `HTTP status: statusText` string, and a retryable
flag equal to membership of the status in `retryableStatuses` — whatever the
reason retry was denied; scenario D (one 401 under defaults) makes exactly
one dispatch and fails with `retryable = false`. -/
theorem C2_failed_outcome_spec :
    (∀ (α : Type) (opts : MergedOptions) (env : Nat → FetchOutcome)
      (jsonParse : String → Option α) (fuel attempt : Nat)
      (lastErr : Option TransmitError) (lastResp : Option ModelResponse) (r : ModelResponse),
      env attempt = FetchOutcome.ok r → r.bodyUsed = false →
      opts.validateStatus r.status = false →
      shouldRetry (some r.status) attempt opts.retry = false →
      transmitLoop opts env jsonParse (fuel + 1) attempt lastErr lastResp =
        { result := Except.ok
            { status := TransmitStatus.failed, statusCode := r.status,
              body := bodyOrEmpty jsonParse r opts.parseResponse,
              headers := parseResponseHeaders r.headers,
              error := some (httpErrorString r),
              retryable := some (opts.retry.retryableStatuses.contains r.status) }
          dispatches := 1 }) ∧
    transmitSET noJson envScenarioD exampleToken exampleUrl true {} =
      { result := Except.ok
          { status := TransmitStatus.failed, statusCode := 401, body := Sum.inl "",
            headers := [], error := some "HTTP 401: Unauthorized", retryable := some false }
        dispatches := 1 } := by
  constructor
  · intro α opts env jsonParse fuel attempt lastErr lastResp r henv hused hacc hretry
    rw [transmitLoop, henv]
    simp [parseResponseBody_fresh jsonParse r opts.parseResponse hused, hacc, hretry]
  · decide

/-- Witness for C2 at a concrete loop state (401 under the default retry
config, attempt 1). -/
theorem C2_failed_outcome_spec_witness :
    transmitLoop (mergeOptions {}) envScenarioD noJson 3 1 none none =
      { result := Except.ok
          { status := TransmitStatus.failed, statusCode := 401,
            body := bodyOrEmpty noJson (plainResponse 401 "Unauthorized")
              (mergeOptions {}).parseResponse,
            headers := parseResponseHeaders (plainResponse 401 "Unauthorized").headers,
            error := some (httpErrorString (plainResponse 401 "Unauthorized")),
            retryable := some ((mergeOptions {}).retry.retryableStatuses.contains 401) }
        dispatches := 1 } :=
  C2_failed_outcome_spec.1 Nat (mergeOptions {}) envScenarioD noJson 2 1 none none
    (plainResponse 401 "Unauthorized") rfl rfl (by decide) (by decide)


/-- Counterexample to C3 as stated: with `maxAttempts = 1` the single (hence
most recent) attempt produces a 404 response and attempts are exhausted
(`attempt ≥ maxAttempts` is the clause that denies the retry), yet the
returned failed outcome carries `retryable = false` — membership of 404 in
`retryableStatuses` — not the claimed `retryable = true`. -/
theorem C3_exhausted_response_counterexample :
    (transmitSET noJson envAll404 exampleToken exampleUrl true optsOneAttempt).result ≠
      Except.ok
        { status := TransmitStatus.failed, statusCode := 404, body := Sum.inl "",
          headers := [], error := some "HTTP 404: Not Found", retryable := some true } ∧
    transmitSET noJson envAll404 exampleToken exampleUrl true optsOneAttempt =
      { result := Except.ok
          { status := TransmitStatus.failed, statusCode := 404, body := Sum.inl "",
            headers := [], error := some "HTTP 404: Not Found", retryable := some false }
        dispatches := 1 } := by
  constructor
  · decide
  · decide

/-- C3 as amended: when attempts are exhausted while the most recent attempt
produced a response that was not accepted, the call returns a failed outcome
built from that response (status code, body, headers) — never the raised
transport-failure condition — whose retryable flag equals membership of the
status in `retryableStatuses`, hence `true` exactly when exhaustion (and not
the status class) is what denied the retry; scenario C (all 503 under
`maxAttempts = 2`) makes exactly two dispatches and fails with status 503
and `retryable = true`. -/
theorem C3_exhausted_response_spec :
    (∀ (α : Type) (opts : MergedOptions) (env : Nat → FetchOutcome)
      (jsonParse : String → Option α) (fuel attempt : Nat)
      (lastErr : Option TransmitError) (lastResp : Option ModelResponse) (r : ModelResponse),
      env attempt = FetchOutcome.ok r → r.bodyUsed = false →
      opts.validateStatus r.status = false →
      opts.retry.maxAttempts ≤ attempt →
      transmitLoop opts env jsonParse (fuel + 1) attempt lastErr lastResp =
        { result := Except.ok
            { status := TransmitStatus.failed, statusCode := r.status,
              body := bodyOrEmpty jsonParse r opts.parseResponse,
              headers := parseResponseHeaders r.headers,
              error := some (httpErrorString r),
              retryable := some (opts.retry.retryableStatuses.contains r.status) }
          dispatches := 1 }) ∧
    (∀ (α : Type) (opts : MergedOptions) (env : Nat → FetchOutcome)
      (jsonParse : String → Option α) (fuel attempt : Nat)
      (lastErr : Option TransmitError) (lastResp : Option ModelResponse) (r : ModelResponse),
      env attempt = FetchOutcome.ok r → r.bodyUsed = false →
      opts.validateStatus r.status = false →
      opts.retry.maxAttempts ≤ attempt →
      opts.retry.retryableStatuses.contains r.status = true →
      transmitLoop opts env jsonParse (fuel + 1) attempt lastErr lastResp =
        { result := Except.ok
            { status := TransmitStatus.failed, statusCode := r.status,
              body := bodyOrEmpty jsonParse r opts.parseResponse,
              headers := parseResponseHeaders r.headers,
              error := some (httpErrorString r),
              retryable := some true }
          dispatches := 1 }) ∧
    transmitSET noJson envScenarioC exampleToken exampleUrl true optsTwoAttempts =
      { result := Except.ok
          { status := TransmitStatus.failed, statusCode := 503, body := Sum.inl "",
            headers := [], error := some "HTTP 503: Service Unavailable",
            retryable := some true }
        dispatches := 2 } := by
  have general : ∀ (α : Type) (opts : MergedOptions) (env : Nat → FetchOutcome)
      (jsonParse : String → Option α) (fuel attempt : Nat)
      (lastErr : Option TransmitError) (lastResp : Option ModelResponse) (r : ModelResponse),
      env attempt = FetchOutcome.ok r → r.bodyUsed = false →
      opts.validateStatus r.status = false →
      opts.retry.maxAttempts ≤ attempt →
      transmitLoop opts env jsonParse (fuel + 1) attempt lastErr lastResp =
        { result := Except.ok
            { status := TransmitStatus.failed, statusCode := r.status,
              body := bodyOrEmpty jsonParse r opts.parseResponse,
              headers := parseResponseHeaders r.headers,
              error := some (httpErrorString r),
              retryable := some (opts.retry.retryableStatuses.contains r.status) }
          dispatches := 1 } := by
    intro α opts env jsonParse fuel attempt lastErr lastResp r henv hused hacc hmax
    have hretry : shouldRetry (some r.status) attempt opts.retry = false := by
      simp [shouldRetry, hmax]
    rw [transmitLoop, henv]
    simp [parseResponseBody_fresh jsonParse r opts.parseResponse hused, hacc, hretry]
  refine ⟨general, ?_, by decide⟩
  intro α opts env jsonParse fuel attempt lastErr lastResp r henv hused hacc hmax hmem
  rw [general α opts env jsonParse fuel attempt lastErr lastResp r henv hused hacc hmax, hmem]

/-- Witness for the amended C3 at a concrete loop state: a 503 response at
attempt 2 with `maxAttempts = 2`. -/
theorem C3_exhausted_response_spec_witness :
    transmitLoop (mergeOptions optsTwoAttempts) envScenarioC noJson 1 2 none
      (some { plainResponse 503 "Service Unavailable" with bodyUsed := true }) =
      { result := Except.ok
          { status := TransmitStatus.failed, statusCode := 503,
            body := bodyOrEmpty noJson (plainResponse 503 "Service Unavailable")
              (mergeOptions optsTwoAttempts).parseResponse,
            headers := parseResponseHeaders (plainResponse 503 "Service Unavailable").headers,
            error := some (httpErrorString (plainResponse 503 "Service Unavailable")),
            retryable := some true }
        dispatches := 1 } :=
  C3_exhausted_response_spec.2.1 Nat (mergeOptions optsTwoAttempts) envScenarioC noJson 0 2 none
    (some { plainResponse 503 "Service Unavailable" with bodyUsed := true })
    (plainResponse 503 "Service Unavailable") rfl rfl (by decide) (by decide) (by decide)


/-- The inner catch only ever builds transport-level errors. -/
theorem transportError_isTransport (timeout : Nat) (f : FetchOutcome) :
    (transportError timeout f).isTransport = true := by
  cases f <;> rfl

/-- One loop step on a transport failure: the dispatch is counted, the error
accumulator becomes the classified transport error, and the loop goes on. -/
theorem transmitLoop_transport_step {α : Type} (opts : MergedOptions)
    (env : Nat → FetchOutcome) (jsonParse : String → Option α) (fuel attempt : Nat)
    (lastErr : Option TransmitError) (lastResp : Option ModelResponse)
    (h : (env attempt).isTransportFailure = true) :
    transmitLoop opts env jsonParse (fuel + 1) attempt lastErr lastResp =
      { result := (transmitLoop opts env jsonParse fuel (attempt + 1)
          (some (transportError opts.timeout (env attempt))) lastResp).result
        dispatches := (transmitLoop opts env jsonParse fuel (attempt + 1)
          (some (transportError opts.timeout (env attempt))) lastResp).dispatches + 1 } := by
  rcases henv : env attempt with r | _ | msg | _
  · rw [henv] at h
    simp [FetchOutcome.isTransportFailure] at h
  all_goals rw [transmitLoop, henv]

/-- Shape of a raised loop result: when the accumulated error (if any) is
transport-level, a raised result means `lastResponse` was never set, the
raised error is transport-level, every remaining attempt's dispatch was a
transport failure, and all remaining attempts were dispatched. -/
theorem transmitLoop_error_shape {α : Type} (opts : MergedOptions) (env : Nat → FetchOutcome)
    (jsonParse : String → Option α) :
    ∀ (fuel attempt : Nat) (lastErr : Option TransmitError) (lastResp : Option ModelResponse)
      (e : TransmitError),
      (∀ e0, lastErr = some e0 → e0.isTransport = true) →
      (transmitLoop opts env jsonParse fuel attempt lastErr lastResp).result = Except.error e →
      lastResp = none ∧ e.isTransport = true ∧
      (∀ k, attempt ≤ k → k < attempt + fuel → (env k).isTransportFailure = true) ∧
      (transmitLoop opts env jsonParse fuel attempt lastErr lastResp).dispatches = fuel := by
  intro fuel
  induction fuel with
  | zero =>
    intro attempt lastErr lastResp e hok herr
    cases lastResp with
    | some resp =>
      cases lastErr with
      | some e0 =>
        rw [transmitLoop.eq_1] at herr
        simp at herr
      | none =>
        rw [transmitLoop.eq_2] at herr
        simp at herr
    | none =>
      cases lastErr with
      | some e0 =>
        rw [transmitLoop.eq_3] at herr
        simp at herr
        refine ⟨rfl, ?_, by omega, by rw [transmitLoop.eq_3]⟩
        rw [← herr]
        exact hok e0 rfl
      | none =>
        rw [transmitLoop.eq_4] at herr
        simp at herr
        refine ⟨rfl, ?_, by omega, by rw [transmitLoop.eq_4]⟩
        rw [← herr]
        rfl
  | succ fuel ih =>
    intro attempt lastErr lastResp e hok herr
    by_cases htf : (env attempt).isTransportFailure = true
    · rw [transmitLoop_transport_step opts env jsonParse fuel attempt lastErr lastResp htf]
        at herr
      simp only [] at herr
      obtain ⟨hnone, htrans, hrange, hdisp⟩ := ih (attempt + 1)
        (some (transportError opts.timeout (env attempt))) lastResp e
        (by
          intro e0 h0
          injection h0 with h0
          rw [← h0]
          exact transportError_isTransport opts.timeout (env attempt)) herr
      refine ⟨hnone, htrans, ?_, ?_⟩
      · intro k hk1 hk2
        rcases Nat.eq_or_lt_of_le hk1 with hk | hk
        · rw [← hk]
          exact htf
        · exact hrange k hk (by omega)
      · rw [transmitLoop_transport_step opts env jsonParse fuel attempt lastErr lastResp htf]
        simp only []
        omega
    · exfalso
      rcases henv : env attempt with r | _ | msg | _ <;> rw [henv] at htf
      · rw [transmitLoop, henv] at herr
        rcases hpb : parseResponseBody jsonParse r opts.parseResponse with msg | ⟨b, r'⟩
        · simp [hpb] at herr
          obtain ⟨hnone, _⟩ := ih (attempt + 1)
            (some (TransmitError.networkError ("Network error: " ++ msg))) (some r) e
            (by intro e0 h0; injection h0 with h0; rw [← h0]; rfl) herr
          exact absurd hnone (by simp)
        · by_cases hacc : opts.validateStatus r.status = true
          · simp [hpb, hacc] at herr
          · simp only [Bool.not_eq_true] at hacc
            by_cases hretry : shouldRetry (some r.status) attempt opts.retry = true
            · simp [hpb, hacc, hretry] at herr
              obtain ⟨hnone, _⟩ := ih (attempt + 1) lastErr (some r') e hok herr
              exact absurd hnone (by simp)
            · simp only [Bool.not_eq_true] at hretry
              simp [hpb, hacc, hretry] at herr
      · exact htf rfl
      · exact htf rfl
      · exact htf rfl


/-- C4: `transmitSET` raises in exactly two situations — a `ValidationError`
before any dispatch when the token or URL is malformed, and a transport-level
error when every dispatched attempt failed at the transport level so no HTTP
response exists to report (in which case all `maxAttempts` attempts were
dispatched).  Contrapositively, any raised non-validation error implies no
attempt ever produced a response, so an HTTP-level failure is always absorbed
into a returned outcome.  Scenario E: connection errors on every dispatch
with `maxAttempts = 2` make exactly two attempts and raise the transport
error. -/
theorem C4_raise_characterization_spec :
    (∀ (α : Type) (jsonParse : String → Option α) (env : Nat → FetchOutcome)
      (jwt url : String) (urlValid : Bool) (options : TransmitOptions),
      isValidSET jwt = false →
      transmitSET jsonParse env jwt url urlValid options =
        { result := Except.error (TransmitError.validationError
            "Invalid SET format: JWT must be in format header.payload.signature")
          dispatches := 0 }) ∧
    (∀ (α : Type) (jsonParse : String → Option α) (env : Nat → FetchOutcome)
      (jwt url : String) (options : TransmitOptions),
      isValidSET jwt = true →
      transmitSET jsonParse env jwt url false options =
        { result := Except.error (TransmitError.validationError ("Invalid URL: " ++ url))
          dispatches := 0 }) ∧
    (∀ (α : Type) (jsonParse : String → Option α) (env : Nat → FetchOutcome)
      (jwt url : String) (options : TransmitOptions) (e : TransmitError),
      isValidSET jwt = true →
      (transmitSET jsonParse env jwt url true options).result = Except.error e →
      e.isTransport = true ∧
      (∀ k, 1 ≤ k → k ≤ (mergeOptions options).retry.maxAttempts →
        (env k).isTransportFailure = true) ∧
      (transmitSET jsonParse env jwt url true options).dispatches =
        (mergeOptions options).retry.maxAttempts) ∧
    transmitSET noJson (fun _ => FetchOutcome.fetchError "connection refused") exampleToken
      exampleUrl true optsTwoAttempts =
      { result := Except.error (TransmitError.networkError "Network error: connection refused")
        dispatches := 2 } := by
  refine ⟨?_, ?_, ?_, by decide⟩
  · intro α jsonParse env jwt url urlValid options h
    simp [transmitSET, h]
  · intro α jsonParse env jwt url options h
    simp [transmitSET, h]
  · intro α jsonParse env jwt url options e h herr
    have hset : transmitSET jsonParse env jwt url true options =
        transmitLoop (mergeOptions options) env jsonParse
          (mergeOptions options).retry.maxAttempts 1 none none := by
      simp [transmitSET, h]
    rw [hset] at herr ⊢
    obtain ⟨_, htrans, hrange, hdisp⟩ := transmitLoop_error_shape (mergeOptions options) env
      jsonParse (mergeOptions options).retry.maxAttempts 1 none none e
      (by intro e0 h0; cases h0) herr
    exact ⟨htrans, fun k hk1 hk2 => hrange k hk1 (by omega), hdisp⟩


/-- Witness for C4: a malformed token raises the validation error; and under
all-transport-failure dispatches the raised error is transport-level with
both configured attempts dispatched. -/
theorem C4_raise_characterization_spec_witness :
    transmitSET noJson (fun _ => FetchOutcome.abortError) ".." exampleUrl true {} =
      { result := Except.error (TransmitError.validationError
          "Invalid SET format: JWT must be in format header.payload.signature")
        dispatches := 0 } ∧
    (TransmitError.networkError "Network error: connection refused").isTransport = true ∧
    ((fun _ => FetchOutcome.fetchError "connection refused") 1).isTransportFailure = true ∧
    (transmitSET noJson (fun _ => FetchOutcome.fetchError "connection refused") exampleToken
      exampleUrl true optsTwoAttempts).dispatches =
      (mergeOptions optsTwoAttempts).retry.maxAttempts := by
  have h1 := C4_raise_characterization_spec.1 Nat noJson (fun _ => FetchOutcome.abortError)
    ".." exampleUrl true {} (by decide)
  have h3 := C4_raise_characterization_spec.2.2.1 Nat noJson
    (fun _ => FetchOutcome.fetchError "connection refused") exampleToken exampleUrl
    optsTwoAttempts (TransmitError.networkError "Network error: connection refused")
    (by decide) (by decide)
  exact ⟨h1, h3.1, h3.2.1 1 (by decide) (by decide), h3.2.2⟩


/-- The response of the C5 scenario: 503, retryable, with headers and a
non-empty body that is consumed by the first attempt's parse. -/
def earlierResponse : ModelResponse :=
  { status := 503, statusText := "Service Unavailable",
    headers := [("retry-after", "1")], bodyText := "try later", bodyUsed := false }

/-- Dispatches for the C5 scenario: a 503 response, then a connection
error. -/
def envEarlierThenFail : Nat → FetchOutcome := fun attempt =>
  if attempt = 1 then FetchOutcome.ok earlierResponse else FetchOutcome.fetchError "boom"

/-- C5: when the loop exhausts its attempts with an accumulated transport
error while `lastResponse` holds an earlier (consumed) response, the call
does not raise: it returns a failed outcome whose status code and normalized
headers come from that earlier response, whose error text is the transport
error's message, whose retryable flag is `true` unconditionally, and whose
body falls back to the empty string because the body cannot be read again.
Concretely, a retryable non-accepted response followed by a transport
failure under `maxAttempts = 2` produces exactly that outcome after two
dispatches. -/
theorem C5_earlier_response_spec :
    (∀ (α : Type) (opts : MergedOptions) (env : Nat → FetchOutcome)
      (jsonParse : String → Option α) (attempt : Nat) (e : TransmitError) (r : ModelResponse),
      r.bodyUsed = true →
      transmitLoop opts env jsonParse 0 attempt (some e) (some r) =
        { result := Except.ok
            { status := TransmitStatus.failed, statusCode := r.status, body := Sum.inl "",
              headers := parseResponseHeaders r.headers, error := some e.message,
              retryable := some true }
          dispatches := 0 }) ∧
    (∀ (α : Type) (jsonParse : String → Option α) (env : Nat → FetchOutcome)
      (jwt url : String) (options : TransmitOptions) (r : ModelResponse) (msg : String),
      isValidSET jwt = true →
      (mergeOptions options).retry.maxAttempts = 2 →
      env 1 = FetchOutcome.ok r → r.bodyUsed = false →
      (mergeOptions options).validateStatus r.status = false →
      (mergeOptions options).retry.retryableStatuses.contains r.status = true →
      env 2 = FetchOutcome.fetchError msg →
      transmitSET jsonParse env jwt url true options =
        { result := Except.ok
            { status := TransmitStatus.failed, statusCode := r.status, body := Sum.inl "",
              headers := parseResponseHeaders r.headers,
              error := some ("Network error: " ++ msg), retryable := some true }
          dispatches := 2 }) ∧
    transmitSET noJson envEarlierThenFail exampleToken exampleUrl true optsTwoAttempts =
      { result := Except.ok
          { status := TransmitStatus.failed, statusCode := 503, body := Sum.inl "",
            headers := [("retry-after", "1")], error := some "Network error: boom",
            retryable := some true }
        dispatches := 2 } := by
  have postloop : ∀ (α : Type) (opts : MergedOptions) (env : Nat → FetchOutcome)
      (jsonParse : String → Option α) (attempt : Nat) (e : TransmitError) (r : ModelResponse),
      r.bodyUsed = true →
      transmitLoop opts env jsonParse 0 attempt (some e) (some r) =
        { result := Except.ok
            { status := TransmitStatus.failed, statusCode := r.status, body := Sum.inl "",
              headers := parseResponseHeaders r.headers, error := some e.message,
              retryable := some true }
          dispatches := 0 } := by
    intro α opts env jsonParse attempt e r hused
    rw [transmitLoop.eq_1, bodyOrEmpty_consumed jsonParse r opts.parseResponse hused]
  refine ⟨postloop, ?_, by decide⟩
  intro α jsonParse env jwt url options r msg hjwt hmax henv1 hused hacc hmem henv2
  have hset : transmitSET jsonParse env jwt url true options =
      transmitLoop (mergeOptions options) env jsonParse
        (mergeOptions options).retry.maxAttempts 1 none none := by
    simp [transmitSET, hjwt]
  rw [hset, hmax]
  have hretry : shouldRetry (some r.status) 1 (mergeOptions options).retry = true := by
    unfold shouldRetry
    rw [if_neg (by rw [hmax]; decide)]
    exact hmem
  have step2 : transmitLoop (mergeOptions options) env jsonParse 1 2 none
      (some { r with bodyUsed := true }) =
      { result := Except.ok
          { status := TransmitStatus.failed, statusCode := r.status, body := Sum.inl "",
            headers := parseResponseHeaders r.headers,
            error := some ("Network error: " ++ msg), retryable := some true }
        dispatches := 1 } := by
    have htf : (env 2).isTransportFailure = true := by rw [henv2]; rfl
    rw [transmitLoop_transport_step (mergeOptions options) env jsonParse 0 2 none
      (some { r with bodyUsed := true }) htf]
    rw [henv2]
    rw [postloop α (mergeOptions options) env jsonParse 3
      (transportError (mergeOptions options).timeout (FetchOutcome.fetchError msg))
      { r with bodyUsed := true } rfl]
    rfl
  rw [transmitLoop, henv1]
  simp [parseResponseBody_fresh jsonParse r (mergeOptions options).parseResponse hused, hacc,
    hretry, step2]

/-- Witness for C5 at the concrete scenario inputs. -/
theorem C5_earlier_response_spec_witness :
    transmitSET noJson envEarlierThenFail exampleToken exampleUrl true optsTwoAttempts =
      { result := Except.ok
          { status := TransmitStatus.failed, statusCode := earlierResponse.status,
            body := Sum.inl "", headers := parseResponseHeaders earlierResponse.headers,
            error := some ("Network error: " ++ "boom"), retryable := some true }
        dispatches := 2 } :=
  C5_earlier_response_spec.2.1 Nat noJson envEarlierThenFail exampleToken exampleUrl
    optsTwoAttempts earlierResponse "boom" (by decide) (by decide) rfl rfl (by decide)
    (by decide) rfl


end SetTransmitter
